import Mathlib

/-!
Verification development for the ewoc_classif repository.

This file gives a shallow embedding, in Lean 4, of the decision logic of the
block-orchestration and configuration-derivation core of the repository
(src/ewoc_classif/classif.py, src/ewoc_classif/utils.py,
src/ewoc_classif/blocks_mosaic.py), together with theorems settling the
behavioural claims about that core.  External collaborators (the processing
engine run_tile, object-storage buckets, the filesystem, environment
variables) are modelled as explicit parameters of the embedded functions.
-/

/-! ## Processing-engine outcomes

The external engine invocation `run_tile` either returns an integer code
(0 success, 1 skip, other failure) or raises an exception.  An invocation of
one block of `process_blocks` is abstracted as a function from block id to
this outcome.
-/

/-- Outcome of processing one block: the engine returned a code, or an
exception was raised while the block was being processed. -/
inductive EngineOutcome where
  | ret (code : Int)
  | exc
  deriving DecidableEq, Repr

/-- Result of the `process_blocks` call: a normal boolean return, or the
`NotImplementedError` raised on the whole-tile mosaic path. -/
inductive PBOutcome where
  | ret (b : Bool)
  | notImplementedError
  deriving DecidableEq, Repr

/-- Embeds the `for block_id in ids_range: try ... except ... break` loop of
`process_blocks` (classif.py lines 250-304).  Returns the accumulated
`return_codes` list (`True` for engine code 0 or 1, `False` otherwise) and
the list of attempted block ids, in order.  An exception records `False` and
breaks out of the loop, so no later id is attempted. -/
def runBlockLoop (engine : Nat → EngineOutcome) : List Nat → List Bool × List Nat
  | [] => ([], [])
  | b :: rest =>
    match engine b with
    | .exc => ([false], [b])
    | .ret code =>
      let tail := runBlockLoop engine rest
      ((decide (code = 0) || decide (code = 1)) :: tail.1, b :: tail.2)

/-- Embeds the derivation of `ids_range` from the `EWOC_BLOCKSIZE`
environment value when `block_ids` is omitted (classif.py lines 234-243):
"512" gives `total_ids = 483`, "1024" gives `total_ids = 120`, and the range
is `list(range(total_ids + 1))`; any other value is unsupported (`none`). -/
def derive_ids_range (ewocBlockSize : String) : Option (List Nat) :=
  if ewocBlockSize = "512" then some (List.range (483 + 1))
  else if ewocBlockSize = "1024" then some (List.range (120 + 1))
  else none

/-- Embeds `process_blocks` (classif.py lines 194-343).  The engine and the
block-size environment value are explicit parameters.  Returns the call
outcome together with the list of attempted block ids.  When `block_ids` is
`none` and every block succeeded, the code reaches the
`raise NotImplementedError` guarded whole-tile mosaic branch (line 314). -/
def process_blocks (engine : Nat → EngineOutcome) (ewocBlockSize : String)
    (blockIds : Option (List Nat)) : PBOutcome × List Nat :=
  match blockIds with
  | some ids =>
    let r := runBlockLoop engine ids
    if r.1.all id then (.ret true, r.2) else (.ret false, r.2)
  | none =>
    match derive_ids_range ewocBlockSize with
    | none => (.ret false, [])
    | some idsRange =>
      let r := runBlockLoop engine idsRange
      if r.1.all id then (.notImplementedError, r.2) else (.ret false, r.2)

/-- A block id is "good" when the engine returned code 0 (success) or code 1
(skip) for it. -/
def goodBlock (engine : Nat → EngineOutcome) (b : Nat) : Prop :=
  ∃ c : Int, engine b = EngineOutcome.ret c ∧ (c = 0 ∨ c = 1)

lemma runBlockLoop_no_exc (engine : Nat → EngineOutcome) (ids : List Nat)
    (h : ∀ b ∈ ids, engine b ≠ EngineOutcome.exc) :
    (runBlockLoop engine ids).2 = ids := by
  induction ids with
  | nil => rfl
  | cons b rest ih =>
    unfold runBlockLoop
    cases hb : engine b with
    | exc => exact absurd hb (h b (by simp))
    | ret code =>
      simp only [List.cons.injEq, true_and]
      exact ih (fun x hx => h x (List.mem_cons_of_mem b hx))

lemma runBlockLoop_exc (engine : Nat → EngineOutcome) (l₁ : List Nat)
    (e : Nat) (l₂ : List Nat)
    (h₁ : ∀ b ∈ l₁, engine b ≠ EngineOutcome.exc)
    (he : engine e = EngineOutcome.exc) :
    (runBlockLoop engine (l₁ ++ e :: l₂)).2 = l₁ ++ [e] := by
  induction l₁ with
  | nil =>
    simp only [List.nil_append]
    unfold runBlockLoop
    rw [he]
  | cons b rest ih =>
    simp only [List.cons_append]
    unfold runBlockLoop
    cases hb : engine b with
    | exc => exact absurd hb (h₁ b (by simp))
    | ret code =>
      simp only [List.cons.injEq, true_and]
      exact ih (fun x hx => h₁ x (List.mem_cons_of_mem b hx))

lemma runBlockLoop_all_iff (engine : Nat → EngineOutcome) (ids : List Nat) :
    (runBlockLoop engine ids).1.all id = true ↔
      ∀ b ∈ (runBlockLoop engine ids).2, goodBlock engine b := by
  induction ids with
  | nil => simp [runBlockLoop]
  | cons b rest ih =>
    unfold runBlockLoop
    cases h : engine b with
    | exc =>
      simp only [List.all_cons, List.mem_singleton]
      constructor
      · intro hall; simp at hall
      · intro hall
        have := hall b (by simp)
        rcases this with ⟨c, hc, _⟩
        rw [h] at hc
        exact absurd hc (by simp)
    | ret code =>
      simp only [List.all_cons, List.mem_cons, Bool.and_eq_true]
      constructor
      · rintro ⟨hb, hrest⟩ x hx
        rcases hx with rfl | hx
        · refine ⟨code, h, ?_⟩
          simp only [id_eq, Bool.or_eq_true, decide_eq_true_eq] at hb
          exact hb
        · exact (ih.mp hrest) x hx
      · intro hall
        refine ⟨?_, ih.mpr (fun x hx => hall x (Or.inr hx))⟩
        rcases hall b (Or.inl rfl) with ⟨c, hc, hc01⟩
        rw [h] at hc
        have : code = c := by cases hc; rfl
        subst this
        simp only [id_eq, Bool.or_eq_true, decide_eq_true_eq]
        exact hc01

/-- C1: For an explicit non-empty list of block ids, `process_blocks`
returns a boolean (never the whole-tile `NotImplementedError`); it returns
`true` iff every attempted block got engine return code 0 (success) or 1
(skip); when no block raises an exception every listed block is attempted
(iteration continues past non-exception failure codes); and when the list
splits as `l₁ ++ e :: l₂` with no exception in `l₁` and an exception at `e`,
exactly `l₁ ++ [e]` is attempted — no block after the exception. -/
theorem process_blocks_aggregation (engine : Nat → EngineOutcome)
    (ewocBlockSize : String) (ids : List Nat) (hne : ids ≠ []) :
    ((process_blocks engine ewocBlockSize (some ids)).1 = PBOutcome.ret true ∨
      (process_blocks engine ewocBlockSize (some ids)).1 = PBOutcome.ret false)
    ∧ ((process_blocks engine ewocBlockSize (some ids)).1 = PBOutcome.ret true ↔
        ∀ b ∈ (process_blocks engine ewocBlockSize (some ids)).2, goodBlock engine b)
    ∧ ((∀ b ∈ ids, engine b ≠ EngineOutcome.exc) →
        (process_blocks engine ewocBlockSize (some ids)).2 = ids)
    ∧ (∀ (l₁ : List Nat) (e : Nat) (l₂ : List Nat), ids = l₁ ++ e :: l₂ →
        (∀ b ∈ l₁, engine b ≠ EngineOutcome.exc) →
        engine e = EngineOutcome.exc →
        (process_blocks engine ewocBlockSize (some ids)).2 = l₁ ++ [e]) := by
  have hall := runBlockLoop_all_iff engine ids
  have hsnd : (process_blocks engine ewocBlockSize (some ids)).2 =
      (runBlockLoop engine ids).2 := by
    unfold process_blocks
    by_cases h : (runBlockLoop engine ids).1.all id <;> simp [h]
  refine ⟨?_, ?_, ?_, ?_⟩
  · unfold process_blocks
    by_cases h : (runBlockLoop engine ids).1.all id
    · left; simp [h]
    · right; simp [h]
  · rw [hsnd]
    unfold process_blocks
    by_cases h : (runBlockLoop engine ids).1.all id
    · simp only [h, if_true]
      exact ⟨fun _ => hall.mp h, fun _ => trivial⟩
    · simp only [h, if_false]
      constructor
      · intro hcontr; exact absurd hcontr (by simp)
      · intro hgood
        exact absurd (hall.mpr hgood) (by simp [h])
  · intro hnoexc
    rw [hsnd]
    exact runBlockLoop_no_exc engine ids hnoexc
  · intro l₁ e l₂ hsplit h₁ he
    rw [hsnd, hsplit]
    exact runBlockLoop_exc engine l₁ e l₂ h₁ he

/-- Witness for C1 at a concrete input: engine fails block 1 with code 3
(iteration continues), raises on block 2 (stops), block 3 never attempted. -/
theorem process_blocks_aggregation_witness :
    ([0, 1, 2, 3] : List Nat) ≠ [] ∧
    (process_blocks
        (fun b => if b = 1 then EngineOutcome.ret 3
                  else if b = 2 then EngineOutcome.exc
                  else EngineOutcome.ret 0)
        "512" (some [0, 1, 2, 3])).1 = PBOutcome.ret false ∧
    (process_blocks
        (fun b => if b = 1 then EngineOutcome.ret 3
                  else if b = 2 then EngineOutcome.exc
                  else EngineOutcome.ret 0)
        "512" (some [0, 1, 2, 3])).2 = [0, 1, 2] := by
  have h := process_blocks_aggregation
    (fun b => if b = 1 then EngineOutcome.ret 3
              else if b = 2 then EngineOutcome.exc
              else EngineOutcome.ret 0)
    "512" [0, 1, 2, 3] (by decide)
  have hatt := h.2.2.2 [0, 1] 2 [3] (by decide)
    (by intro b hb; fin_cases hb <;> decide) (by decide)
  refine ⟨by decide, ?_, by simpa using hatt⟩
  rcases h.1 with htrue | hfalse
  · exfalso
    have hgood := h.2.1.mp htrue
    have hmem : (1 : Nat) ∈ (process_blocks
        (fun b => if b = 1 then EngineOutcome.ret 3
                  else if b = 2 then EngineOutcome.exc
                  else EngineOutcome.ret 0)
        "512" (some [0, 1, 2, 3])).2 := by
      rw [hatt]; decide
    rcases hgood 1 hmem with ⟨c, hc, hc01⟩
    simp only [if_pos rfl] at hc
    cases hc
    rcases hc01 with h0 | h0 <;> exact absurd h0 (by decide)
  · exact hfalse

/-- C3: with `block_ids` omitted, block-size "512" derives exactly the ids
0..483 (484 of them), "1024" derives exactly 0..120 (121 of them), and any
other block-size value makes `process_blocks` return `false` immediately
with zero blocks attempted. -/
theorem process_blocks_block_range (engine : Nat → EngineOutcome)
    (ewocBlockSize : String)
    (h : ewocBlockSize ≠ "512" ∧ ewocBlockSize ≠ "1024") :
    (∀ b : Nat, b ∈ (derive_ids_range "512").getD [] ↔ b ≤ 483)
    ∧ ((derive_ids_range "512").getD []).length = 484
    ∧ (∀ b : Nat, b ∈ (derive_ids_range "1024").getD [] ↔ b ≤ 120)
    ∧ ((derive_ids_range "1024").getD []).length = 121
    ∧ process_blocks engine ewocBlockSize none = (PBOutcome.ret false, []) := by
  refine ⟨?_, ?_, ?_, ?_, ?_⟩
  · intro b; simp [derive_ids_range, List.mem_range]; omega
  · simp [derive_ids_range]
  · intro b; simp [derive_ids_range, List.mem_range]; omega
  · simp [derive_ids_range]
  · unfold process_blocks derive_ids_range
    rw [if_neg h.1, if_neg h.2]

/-- Witness for C3 at the concrete unsupported block size "2048". -/
theorem process_blocks_block_range_witness :
    (("2048" : String) ≠ "512" ∧ ("2048" : String) ≠ "1024") ∧
    process_blocks (fun _ => EngineOutcome.ret 0) "2048" none =
      (PBOutcome.ret false, []) := by
  have h := process_blocks_block_range (fun _ => EngineOutcome.ret 0) "2048"
    ⟨by decide, by decide⟩
  exact ⟨⟨by decide, by decide⟩, h.2.2.2.2⟩

/-! ## Configuration Builder (utils.py, generate_config_file)

The ambient process environment is modelled as an explicit map from
variable name to optional value; `generate_config_file` reads exactly
`EWOC_MODELS_DIR_ROOT` (model-root override) and `EWOC_DEV_MODE`
(dev/prod namespace flag) from it.  Python float literals 0.7 / 0.85 / 0.75
are inert configuration data; they are stored scaled by 100 as naturals.
-/

/-- Ambient environment: variable name to optional value (os.getenv). -/
def EnvVars : Type := String → Option String

/-- Embeds str.lower as used by distutils.util.strtobool. -/
def pyLower (s : String) : String := String.mk (s.toList.map Char.toLower)

/-- Embeds distutils.util.strtobool: truthy and falsy literals after
lowercasing; any other value raises ValueError, modelled as `none`. -/
def strtobool (s : String) : Option Bool :=
  let v := pyLower s
  if v ∈ ["y", "yes", "t", "true", "on", "1"] then some true
  else if v ∈ ["n", "no", "f", "false", "off", "0"] then some false
  else none

/-- Embeds the nested filtersettings mapping; conf_threshold is in
hundredths (0.85 is 85, 0.75 is 75). -/
structure FilterSettings where
  kernelsize : Nat
  conf_threshold_x100 : Nat
  deriving DecidableEq, Repr

/-- Embeds the config "parameters" mapping.  Keys that the source adds only
on some paths are `Option`-valued (`none` means the key is absent);
decision_threshold is in hundredths (0.7 is 70). -/
structure ConfigParameters where
  year : Int
  season : String
  featuresettings : String
  save_confidence : Bool
  save_features : Bool
  localmodels : Bool
  segment : Bool
  decision_threshold_x100 : Nat
  filtersettings : FilterSettings
  features_dir : Option String
  use_existing_features : Option Bool
  active_marker : Option Bool
  cropland_mask : Option String
  irrigation : Option Bool
  irrparameters : Option String
  irrmodels : Option (List (String × String))
  deriving DecidableEq, Repr

/-- Embeds the config structure returned by generate_config_file:
parameters, inputs (csv_dict) and models, the two mappings as
insertion-ordered association lists. -/
structure Config where
  parameters : ConfigParameters
  inputs : List (String × String)
  models : List (String × String)
  deriving DecidableEq, Repr

/-- Possible results of generate_config_file: a usable config, the empty
dict returned for an unknown featuresettings value, the UnboundLocalError
raised when featuresettings is "croptype" but the season matches no branch
(the local variable `config` is then never assigned before `return config`),
or the ValueError raised by strtobool on a malformed EWOC_DEV_MODE value. -/
inductive ConfigResult where
  | ok (c : Config)
  | emptyDict
  | unboundLocalError
  | valueError
  deriving DecidableEq, Repr

/-- Croptype-style model URI template
`.../{version}/{name}_detector_WorldCerealPixelCatBoost_{version}/config.json`. -/
def detector_model_url (model_root version name : String) : String :=
  model_root ++ "/models/WorldCerealPixelCatBoost/" ++ version ++ "/" ++
    name ++ "_detector_WorldCerealPixelCatBoost_" ++ version ++ "/config.json"

/-- Embeds generate_config_file (utils.py lines 71-209). -/
def generate_config_file (env : EnvVars)
    (featuresettings : String) (end_season_year : Int) (ewoc_season : String)
    (production_id : String)
    (cropland_model_version croptype_model_version irr_model_version : String)
    (csv_dict : List (String × String)) (feature_blocks_dir : String)
    (no_tir_data : Bool) (use_existing_features : Bool)
    (add_croptype : Bool) : ConfigResult :=
  let parameters : ConfigParameters := {
    year := end_season_year
    season := ewoc_season
    featuresettings := featuresettings
    save_confidence := true
    save_features := false
    localmodels := true
    segment := false
    decision_threshold_x100 := 70
    filtersettings := ⟨3, 85⟩
    features_dir := none
    use_existing_features := none
    active_marker := none
    cropland_mask := none
    irrigation := none
    irrparameters := none
    irrmodels := none }
  let ewoc_model_prefix := (env "EWOC_MODELS_DIR_ROOT").getD
    "https://artifactory.vgt.vito.be:443/auxdata-public/worldcereal"
  if featuresettings = "cropland" then
    let parameters := { parameters with
      localmodels := false
      save_features := true
      features_dir := some feature_blocks_dir
      use_existing_features := some use_existing_features }
    let models := [("annualcropland",
      ewoc_model_prefix ++ "/models/WorldCerealPixelCatBoost/" ++
        cropland_model_version ++
        "/cropland_detector_WorldCerealPixelCatBoost_" ++
        cropland_model_version ++ "-realms")]
    ConfigResult.ok ⟨parameters, csv_dict, models⟩
  else if featuresettings = "croptype" then
    match strtobool ((env "EWOC_DEV_MODE").getD "False") with
    | none => ConfigResult.valueError
    | some is_dev =>
      let cropland_mask_bucket :=
        if is_dev then "s3://ewoc-prd-dev/" ++ production_id
        else "s3://ewoc-prd/" ++ production_id
      let parameters := { parameters with
        filtersettings := ⟨7, 75⟩
        save_features := true
        features_dir := some feature_blocks_dir
        use_existing_features := some use_existing_features }
      let parameters :=
        if !no_tir_data then
          { parameters with
            active_marker := some true
            cropland_mask := some cropland_mask_bucket
            irrigation := some true
            irrparameters := some "irrigation"
            irrmodels := some [("irrigation",
              detector_model_url ewoc_model_prefix irr_model_version
                "irrigation")] }
        else
          { parameters with
            active_marker := some true
            cropland_mask := some cropland_mask_bucket
            irrigation := some false }
      if ewoc_season = "summer1" then
        let models :=
          [("maize",
            detector_model_url ewoc_model_prefix croptype_model_version
              "maize"),
           ("springcereals",
            detector_model_url ewoc_model_prefix croptype_model_version
              "springcereals")]
        let models := if add_croptype then
            models ++ [("sunflower",
              detector_model_url ewoc_model_prefix croptype_model_version
                "sunflower")]
          else models
        ConfigResult.ok ⟨parameters, csv_dict, models⟩
      else if ewoc_season = "summer2" then
        let models := [("maize",
          detector_model_url ewoc_model_prefix croptype_model_version
            "maize")]
        ConfigResult.ok ⟨parameters, csv_dict, models⟩
      else if ewoc_season = "winter" then
        let models := [("wintercereals",
          detector_model_url ewoc_model_prefix croptype_model_version
            "wintercereals")]
        let models := if add_croptype then
            models ++ [("rapeseed",
              detector_model_url ewoc_model_prefix croptype_model_version
                "rapeseed")]
          else models
        ConfigResult.ok ⟨parameters, csv_dict, models⟩
      else ConfigResult.unboundLocalError
  else ConfigResult.emptyDict

/-- Keys of the models mapping of a usable configuration, in insertion
order; `none` when the result is not a usable configuration. -/
def configModelKeys : ConfigResult → Option (List String)
  | .ok c => some (c.models.map Prod.fst)
  | _ => none

/-- C2: for detector "croptype" the models mapping is determined by the
season — summer1 gives exactly the keys maize and springcereals plus
sunflower iff add_croptype is set, summer2 gives exactly maize, winter gives
exactly wintercereals plus rapeseed iff add_croptype is set — and for any
season outside these three the call produces no usable configuration (the
source raises UnboundLocalError since `config` is never assigned on that
path). -/
theorem generate_config_croptype_models (env : EnvVars) (y : Int)
    (pid clv ctv irrv : String) (csv : List (String × String)) (fdir : String)
    (notir reuse : Bool) (d : Bool)
    (hdev : strtobool ((env "EWOC_DEV_MODE").getD "False") = some d) :
    (∀ add : Bool, configModelKeys
        (generate_config_file env "croptype" y "summer1" pid clv ctv irrv
          csv fdir notir reuse add) =
      some (["maize", "springcereals"] ++ if add then ["sunflower"] else []))
    ∧ (∀ add : Bool, configModelKeys
        (generate_config_file env "croptype" y "summer2" pid clv ctv irrv
          csv fdir notir reuse add) = some ["maize"])
    ∧ (∀ add : Bool, configModelKeys
        (generate_config_file env "croptype" y "winter" pid clv ctv irrv
          csv fdir notir reuse add) =
      some (["wintercereals"] ++ if add then ["rapeseed"] else []))
    ∧ (∀ (s : String) (add : Bool), s ≠ "summer1" → s ≠ "summer2" →
        s ≠ "winter" →
        generate_config_file env "croptype" y s pid clv ctv irrv
            csv fdir notir reuse add = ConfigResult.unboundLocalError) := by
  refine ⟨?_, ?_, ?_, ?_⟩
  · intro add
    unfold generate_config_file
    rw [hdev]
    cases add <;> cases notir <;> simp [configModelKeys]
  · intro add
    unfold generate_config_file
    rw [hdev]
    cases notir <;> simp [configModelKeys]
  · intro add
    unfold generate_config_file
    rw [hdev]
    cases add <;> cases notir <;> simp [configModelKeys]
  · intro s add hs1 hs2 hs3
    unfold generate_config_file
    rw [hdev]
    cases notir <;> simp [hs1, hs2, hs3]

/-- Witness for C2 at concrete inputs: empty environment (EWOC_DEV_MODE
falls back to "False"), season summer2 yields exactly the maize key, and
season "annual" yields no usable configuration. -/
theorem generate_config_croptype_models_witness :
    strtobool ((((fun _ => none) : EnvVars) "EWOC_DEV_MODE").getD "False") =
      some false ∧
    configModelKeys
      (generate_config_file (fun _ => none) "croptype" 2021 "summer2"
        "EWoC_prd_46_20220101" "v700" "v720" "v420" [] "/feat" false true
        false) = some ["maize"] ∧
    generate_config_file (fun _ => none) "croptype" 2021 "annual"
        "EWoC_prd_46_20220101" "v700" "v720" "v420" [] "/feat" false true
        false = ConfigResult.unboundLocalError := by
  have h := generate_config_croptype_models (fun _ => none) 2021
    "EWoC_prd_46_20220101" "v700" "v720" "v420" [] "/feat" false true false
    (by decide)
  exact ⟨by decide, h.2.1 false,
    h.2.2.2 "annual" false (by decide) (by decide) (by decide)⟩

/-- C5 counterexample: generate_config_file is not a pure function of its
explicit arguments — two calls with identical argument values but different
ambient values of EWOC_MODELS_DIR_ROOT produce different configurations. -/
theorem generate_config_env_dependence_cex :
    generate_config_file
        (fun k => if k = "EWOC_MODELS_DIR_ROOT" then some "/local/models"
                  else none)
        "cropland" 2021 "annual" "EWoC_prd_46_20220101" "v700" "v720" "v420"
        [] "/feat" false true false
    ≠ generate_config_file ((fun _ => none) : EnvVars)
        "cropland" 2021 "annual" "EWoC_prd_46_20220101" "v700" "v720" "v420"
        [] "/feat" false true false := by
  decide

/-- C5 (amended): generate_config_file is a pure function of its explicit
arguments together with exactly the two ambient environment variables
EWOC_MODELS_DIR_ROOT and EWOC_DEV_MODE — two calls with identical argument
values whose environments agree on those two variables produce identical
results, whatever else the environments contain. -/
theorem generate_config_env_only_two_vars (env₁ env₂ : EnvVars)
    (featuresettings : String) (y : Int) (s pid clv ctv irrv : String)
    (csv : List (String × String)) (fdir : String) (notir reuse add : Bool)
    (h₁ : env₁ "EWOC_MODELS_DIR_ROOT" = env₂ "EWOC_MODELS_DIR_ROOT")
    (h₂ : env₁ "EWOC_DEV_MODE" = env₂ "EWOC_DEV_MODE") :
    generate_config_file env₁ featuresettings y s pid clv ctv irrv csv fdir
        notir reuse add =
      generate_config_file env₂ featuresettings y s pid clv ctv irrv csv fdir
        notir reuse add := by
  unfold generate_config_file
  rw [h₁, h₂]

/-- Witness for C5 (amended) at concrete environments that differ in an
unrelated variable but agree on the two read ones. -/
theorem generate_config_env_only_two_vars_witness :
    ((((fun k => if k = "HOME" then some "/root" else none) : EnvVars)
        "EWOC_MODELS_DIR_ROOT") = (((fun _ => none) : EnvVars)
        "EWOC_MODELS_DIR_ROOT")) ∧
    ((((fun k => if k = "HOME" then some "/root" else none) : EnvVars)
        "EWOC_DEV_MODE") = (((fun _ => none) : EnvVars) "EWOC_DEV_MODE")) ∧
    generate_config_file
        (fun k => if k = "HOME" then some "/root" else none)
        "cropland" 2021 "annual" "EWoC_prd_46_20220101" "v700" "v720" "v420"
        [] "/feat" false true false =
      generate_config_file ((fun _ => none) : EnvVars)
        "cropland" 2021 "annual" "EWoC_prd_46_20220101" "v700" "v720" "v420"
        [] "/feat" false true false := by
  refine ⟨by decide, by decide, ?_⟩
  exact generate_config_env_only_two_vars _ _ "cropland" 2021 "annual"
    "EWoC_prd_46_20220101" "v700" "v720" "v420" [] "/feat" false true false
    (by decide) (by decide)

/-! ## Collection Completeness Checker (classif.py, check_collection)

A satio collection is modelled as its dataframe: a list of entries in
dataframe order, each with an acquisition date (days since an arbitrary
epoch; the source compares %Y-%m-%d strings, which orders exactly like
dates), a flag saying whether the entry survives the filter_bounds
restriction to the requested block, and the nodata flag consulted by
filter_nodata for TIR collections.  pandas NaT/nan propagation on an empty
collection (min/max of no entries, and the max of a diff of fewer than two
entries) is modelled with `Option`: a nan gap compares as not-greater-than
any threshold, exactly as in pandas.
-/

/-- One row of a satio collection dataframe. -/
structure CollEntry where
  date : Int
  inBounds : Bool
  nodata : Bool
  deriving DecidableEq, Repr

/-- Differences of consecutive dataframe dates, as produced by
`pd.to_datetime(...).diff()` (without its leading NaT). -/
def consecDiffs : List Int → List Int
  | a :: b :: rest => (b - a) :: consecDiffs (b :: rest)
  | _ => []

/-- A pandas comparison `g > threshold` where `g` may be nan/NaT
(modelled `none`): nan compares false. -/
def gapExceeds (g : Option Int) (threshold : Int) : Bool :=
  match g with
  | none => false
  | some v => decide (v > threshold)

/-- The collection dataframe after the restrictions check_collection applies
before measuring (classif.py lines 133-147): filter_bounds on the requested
block, the temporal window `start_date - 1 ≤ date < end_date + 1` (the
source builds the two bound strings of the window from start-1day and
end+1day and filters with `>=` and `<`), and filter_nodata for TIR. -/
def restrictedColl (coll : List CollEntry) (name : String)
    (start_date end_date : Int) : List CollEntry :=
  let coll := coll.filter (fun e => e.inBounds)
  let coll := coll.filter (fun e =>
    decide (start_date - 1 ≤ e.date) && decide (e.date < end_date + 1))
  if name = "TIR" then coll.filter (fun e => !e.nodata) else coll

/-- Embeds check_collection (classif.py lines 116-191): measures the
restricted collection and accumulates `opt_only` through the successive
`if` statements of the source; always returns (never raises). -/
def check_collection (coll : List CollEntry) (name : String)
    (start_date end_date : Int) (fail_threshold : Int)
    (min_size : Nat) : Bool :=
  let dates := (restrictedColl coll name start_date end_date).map
    (fun e => e.date)
  let opt_only := false
  let collsize := dates.length
  let opt_only := if collsize < min_size then true else opt_only
  let gapstart := dates.min?.map (fun m => max (m - start_date) 0)
  let gapend := dates.max?.map (fun m => max (end_date - m) 0)
  let maxgap := (consecDiffs dates).max?
  let opt_only := if gapExceeds gapstart fail_threshold then true else opt_only
  let opt_only := if gapExceeds gapend fail_threshold then true else opt_only
  let opt_only := if gapExceeds maxgap fail_threshold then true else opt_only
  opt_only

/-- C6: check_collection reports the collection degraded exactly when, after
restricting it to the block bounds, to the temporal window
[start-1day, end+1day) and (for TIR) dropping nodata entries, at least one
of the four conditions holds: size below min_size, gapstart (earliest entry
minus window start, floored at 0) above the threshold, gapend (window end
minus latest entry, floored at 0) above the threshold, or the largest
consecutive gap above the threshold; and it returns a boolean rather than
raising for a degraded collection. -/
theorem check_collection_degraded_iff (coll : List CollEntry) (name : String)
    (start_date end_date fail_threshold : Int) (min_size : Nat) :
    check_collection coll name start_date end_date fail_threshold min_size =
      true ↔
    (let dates := (restrictedColl coll name start_date end_date).map
        (fun e => e.date)
     dates.length < min_size
     ∨ (∃ m, dates.min? = some m ∧ max (m - start_date) 0 > fail_threshold)
     ∨ (∃ m, dates.max? = some m ∧ max (end_date - m) 0 > fail_threshold)
     ∨ (∃ g, (consecDiffs dates).max? = some g ∧ g > fail_threshold)) := by
  constructor
  · intro h
    by_cases h1 : ((restrictedColl coll name start_date end_date).map
        (fun e => e.date)).length < min_size
    · exact Or.inl h1
    by_cases h2 : gapExceeds
        (((restrictedColl coll name start_date end_date).map
          (fun e => e.date)).min?.map (fun m => max (m - start_date) 0))
        fail_threshold
    · right; left
      unfold gapExceeds at h2
      cases hm : ((restrictedColl coll name start_date end_date).map
          (fun e => e.date)).min? with
      | none => rw [hm] at h2; simp at h2
      | some m =>
        rw [hm, Option.map_some'] at h2
        exact ⟨m, rfl, by simpa using h2⟩
    by_cases h3 : gapExceeds
        (((restrictedColl coll name start_date end_date).map
          (fun e => e.date)).max?.map (fun m => max (end_date - m) 0))
        fail_threshold
    · right; right; left
      unfold gapExceeds at h3
      cases hm : ((restrictedColl coll name start_date end_date).map
          (fun e => e.date)).max? with
      | none => rw [hm] at h3; simp at h3
      | some m =>
        rw [hm, Option.map_some'] at h3
        exact ⟨m, rfl, by simpa using h3⟩
    by_cases h4 : gapExceeds
        ((consecDiffs ((restrictedColl coll name start_date end_date).map
          (fun e => e.date))).max?) fail_threshold
    · right; right; right
      unfold gapExceeds at h4
      cases hm : (consecDiffs ((restrictedColl coll name start_date
          end_date).map (fun e => e.date))).max? with
      | none => rw [hm] at h4; simp at h4
      | some g =>
        rw [hm] at h4
        exact ⟨g, rfl, by simpa using h4⟩
    · exfalso
      have hfalse : check_collection coll name start_date end_date
          fail_threshold min_size = false := by
        unfold check_collection
        simp only []
        rw [if_neg h4, if_neg h3, if_neg h2, if_neg h1]
      rw [h] at hfalse
      exact absurd hfalse (by decide)
  · intro h
    rcases h with h1 | ⟨m, hm, hgt⟩ | ⟨m, hm, hgt⟩ | ⟨g, hg, hgt⟩
    · have h1' : (restrictedColl coll name start_date end_date).length <
          min_size := by simpa using h1
      simp [check_collection, h1']
    · have h2 : gapExceeds
          (((restrictedColl coll name start_date end_date).map
            (fun e => e.date)).min?.map (fun m => max (m - start_date) 0))
          fail_threshold = true := by
        rw [hm, Option.map_some']
        unfold gapExceeds
        simpa using hgt
      simp [check_collection, h2]
    · have h3 : gapExceeds
          (((restrictedColl coll name start_date end_date).map
            (fun e => e.date)).max?.map (fun m => max (end_date - m) 0))
          fail_threshold = true := by
        rw [hm, Option.map_some']
        unfold gapExceeds
        simpa using hgt
      simp [check_collection, h3]
    · have h4 : gapExceeds
          ((consecDiffs ((restrictedColl coll name start_date
            end_date).map (fun e => e.date))).max?) fail_threshold = true := by
        rw [hg]
        unfold gapExceeds
        simpa using hgt
      simp [check_collection, h4]

/-! ## Feature Reuse Resolver (classif.py, download_features)

The product bucket is modelled by its existence predicate on object paths
(`_check_product_file`); `download_bucket_prefix` calls are recorded as the
list of bucket paths downloaded.
-/

/-- Embeds the Python format f-string 03d padding used for the block id. -/
def pad3 (n : Nat) : String :=
  let s := toString n
  if s.length ≥ 3 then s
  else String.mk (List.replicate (3 - s.length) '0') ++ s

/-- The deterministic bucket path of a per-block feature artifact
(classif.py lines 88 and 102):
`{production_id}/block_features/blocks/{tile}/{year}_{tag}/{tile}_{aez}_{block:03d}_features.tif`. -/
def block_features_path (production_id tile_id : String) (year : Nat)
    (tag : String) (aez : Nat) (block : Nat) : String :=
  production_id ++ "/block_features/blocks/" ++ tile_id ++ "/" ++
    toString year ++ "_" ++ tag ++ "/" ++ tile_id ++ "_" ++ toString aez ++
    "_" ++ pad3 block ++ "_features.tif"

/-- Embeds download_features (classif.py lines 53-114).  Returns the boolean
result (`check_product and check_product_irr`) together with the list of
bucket paths actually downloaded. -/
def download_features (bucketHas : String → Bool) (tile_id : String)
    (end_season_year : Nat) (ewoc_season : String) (block : Nat)
    (production_id : String) (aez_id : Nat) : Bool × List String :=
  let irrStep : Bool × List String :=
    if ewoc_season = "annual" then (true, [])
    else
      let p := block_features_path production_id tile_id end_season_year
        (ewoc_season ++ "/features_irrigation") aez_id block
      let chk := bucketHas p
      (chk, if chk then [p] else [])
  let season_tag := if ewoc_season = "annual" then "annual/features_cropland"
    else ewoc_season ++ "/features_croptype"
  let p := block_features_path production_id tile_id end_season_year
    season_tag aez_id block
  let check_product := bucketHas p
  (check_product && irrStep.1,
   irrStep.2 ++ (if check_product then [p] else []))

/-- C7: for the annual season download_features returns exactly the
existence of the single cropland-features artifact at its deterministic
bucket path; for every other season it returns the conjunction of the
croptype-features and irrigation-features existence checks; in both cases
it downloads exactly those checked artifacts that exist, and absence never
raises — the function always returns a boolean. -/
theorem download_features_reuse (bucketHas : String → Bool)
    (tile_id : String) (year : Nat) (season : String) (block : Nat)
    (pid : String) (aez : Nat) :
    (season = "annual" →
      (download_features bucketHas tile_id year season block pid aez).1 =
        bucketHas (block_features_path pid tile_id year
          "annual/features_cropland" aez block) ∧
      (download_features bucketHas tile_id year season block pid aez).2 =
        (if bucketHas (block_features_path pid tile_id year
            "annual/features_cropland" aez block)
         then [block_features_path pid tile_id year
            "annual/features_cropland" aez block] else []))
    ∧ (season ≠ "annual" →
      (download_features bucketHas tile_id year season block pid aez).1 =
        (bucketHas (block_features_path pid tile_id year
            (season ++ "/features_croptype") aez block)
          && bucketHas (block_features_path pid tile_id year
            (season ++ "/features_irrigation") aez block)) ∧
      (download_features bucketHas tile_id year season block pid aez).2 =
        ((if bucketHas (block_features_path pid tile_id year
              (season ++ "/features_irrigation") aez block)
          then [block_features_path pid tile_id year
              (season ++ "/features_irrigation") aez block] else []) ++
         (if bucketHas (block_features_path pid tile_id year
              (season ++ "/features_croptype") aez block)
          then [block_features_path pid tile_id year
              (season ++ "/features_croptype") aez block] else [])))
    ∧ (∀ p ∈ (download_features bucketHas tile_id year season block
          pid aez).2, bucketHas p = true) := by
  refine ⟨?_, ?_, ?_⟩
  · intro hs
    subst hs
    unfold download_features
    simp only [if_pos rfl]
    constructor
    · simp
    · rfl
  · intro hs
    unfold download_features
    rw [if_neg hs, if_neg hs]
    constructor
    · simp [Bool.and_comm]
    · rfl
  · intro p hp
    unfold download_features at hp
    simp only [] at hp
    by_cases hs : season = "annual"
    · rw [if_pos hs, if_pos hs] at hp
      simp only [List.nil_append] at hp
      by_cases hb : bucketHas (block_features_path pid tile_id year
          "annual/features_cropland" aez block)
      · rw [if_pos hb] at hp
        rcases List.mem_singleton.mp hp with rfl
        exact hb
      · rw [if_neg hb] at hp
        exact absurd hp (List.not_mem_nil p)
    · rw [if_neg hs, if_neg hs] at hp
      simp only [] at hp
      rcases List.mem_append.mp hp with hp | hp
      · by_cases hb : bucketHas (block_features_path pid tile_id year
            (season ++ "/features_irrigation") aez block)
        · rw [if_pos hb] at hp
          rcases List.mem_singleton.mp hp with rfl
          exact hb
        · rw [if_neg hb] at hp
          exact absurd hp (List.not_mem_nil p)
      · by_cases hb : bucketHas (block_features_path pid tile_id year
            (season ++ "/features_croptype") aez block)
        · rw [if_pos hb] at hp
          rcases List.mem_singleton.mp hp with rfl
          exact hb
        · rw [if_neg hb] at hp
          exact absurd hp (List.not_mem_nil p)

/-- Witness for C7 at concrete inputs: an empty bucket with season annual
gives false and no downloads; a full bucket with season summer1 gives true. -/
theorem download_features_reuse_witness :
    (("annual" : String) = "annual" ∧
      (download_features (fun _ => false) "31TCJ" 2021 "annual" 7
        "EWoC_prd_46_20220101" 46).1 = false) ∧
    (("summer1" : String) ≠ "annual" ∧
      (download_features (fun _ => true) "31TCJ" 2021 "summer1" 7
        "EWoC_prd_46_20220101" 46).1 = true) := by
  constructor
  · refine ⟨rfl, ?_⟩
    have h := (download_features_reuse (fun _ => false) "31TCJ" 2021
      "annual" 7 "EWoC_prd_46_20220101" 46).1 rfl
    rw [h.1]
  · refine ⟨by decide, ?_⟩
    have h := (download_features_reuse (fun _ => true) "31TCJ" 2021
      "summer1" 7 "EWoC_prd_46_20220101" 46).2.1 (by decide)
    rw [h.1]
    decide

/-! ## Mosaic output validation (utils.py check_outfold and classif.py
postprocess_mosaic)

The filesystem subtree at a directory path is modelled by whether the
directory exists and by the os.walk view of it: the list of filename lists,
one per walked directory.
-/

/-- A directory as seen by check_outfold: existence plus the os.walk
filename lists. -/
structure WalkDir where
  present : Bool
  walkFiles : List (List String)
  deriving DecidableEq, Repr

/-- Embeds check_outfold (utils.py lines 211-225): true iff the folder
exists and some walked directory contains at least one file. -/
def check_outfold (outdir : WalkDir) : Bool :=
  if outdir.present then
    outdir.walkFiles.any (fun files => files.length > 0)
  else false

/-- Outcome of postprocess_mosaic: normal return, or the
`Exception("Upload folder must be empty, the mosaic failed")` raise. -/
inductive MosaicOutcome where
  | ok
  | uploadFolderException
  deriving DecidableEq, Repr

/-- Embeds the output-validation decision of postprocess_mosaic
(classif.py lines 391-415): after the mosaic engine ran, the expected output
directory `cogs/{tile}/{year}_{season}` is checked with check_outfold; the
upload/ingestion path runs and the function returns normally when the check
passes, otherwise the exception is raised.  The filesystem is an explicit
map from path to directory state. -/
def postprocess_mosaic (fs : String → WalkDir) (tile_id : String)
    (year : Nat) (season : String) : MosaicOutcome :=
  let outdir := fs ("cogs/" ++ tile_id ++ "/" ++ toString year ++ "_" ++
    season)
  if check_outfold outdir then MosaicOutcome.ok
  else MosaicOutcome.uploadFolderException

/-- C8: postprocess_mosaic raises exactly when the expected output directory
`cogs/{tile}/{year}_{season}` contains no file anywhere in its walk —
including when it does not exist — and returns normally exactly when that
directory recursively contains at least one file. -/
theorem postprocess_mosaic_empty_output (fs : String → WalkDir)
    (tile_id : String) (year : Nat) (season : String) :
    (postprocess_mosaic fs tile_id year season =
        MosaicOutcome.uploadFolderException ↔
      ¬((fs ("cogs/" ++ tile_id ++ "/" ++ toString year ++ "_" ++
          season)).present = true ∧
        ∃ files ∈ (fs ("cogs/" ++ tile_id ++ "/" ++ toString year ++ "_" ++
          season)).walkFiles, files ≠ []))
    ∧ (postprocess_mosaic fs tile_id year season = MosaicOutcome.ok ↔
      ((fs ("cogs/" ++ tile_id ++ "/" ++ toString year ++ "_" ++
          season)).present = true ∧
        ∃ files ∈ (fs ("cogs/" ++ tile_id ++ "/" ++ toString year ++ "_" ++
          season)).walkFiles, files ≠ [])) := by
  have hiff : check_outfold (fs ("cogs/" ++ tile_id ++ "/" ++
      toString year ++ "_" ++ season)) = true ↔
      ((fs ("cogs/" ++ tile_id ++ "/" ++ toString year ++ "_" ++
        season)).present = true ∧
       ∃ files ∈ (fs ("cogs/" ++ tile_id ++ "/" ++ toString year ++ "_" ++
        season)).walkFiles, files ≠ []) := by
    unfold check_outfold
    by_cases hp : (fs ("cogs/" ++ tile_id ++ "/" ++ toString year ++ "_" ++
        season)).present
    · rw [if_pos hp]
      simp only [hp, true_and, List.any_eq_true]
      constructor
      · rintro ⟨files, hfmem, hflen⟩
        exact ⟨files, hfmem, by
          intro hnil
          rw [hnil] at hflen
          simp at hflen⟩
      · rintro ⟨files, hfmem, hfne⟩
        refine ⟨files, hfmem, ?_⟩
        simpa [List.length_pos] using hfne
    · rw [if_neg hp]
      simp only [Bool.false_eq_true, false_iff, not_and]
      intro hpr
      exact absurd hpr hp
  unfold postprocess_mosaic
  by_cases hc : check_outfold (fs ("cogs/" ++ tile_id ++ "/" ++
      toString year ++ "_" ++ season)) = true
  · rw [if_pos hc]
    constructor
    · constructor
      · intro hcontr; exact absurd hcontr (by simp)
      · intro hne; exact absurd (hiff.mp hc) hne
    · exact ⟨fun _ => hiff.mp hc, fun _ => rfl⟩
  · rw [if_neg hc]
    constructor
    · constructor
      · intro _
        intro hgood
        exact hc (hiff.mpr hgood)
      · intro _; rfl
    · constructor
      · intro hcontr; exact absurd hcontr (by simp)
      · intro hgood; exact absurd (hiff.mpr hgood) hc

/-! ## AEZ extraction from the production identifier

`int(production_id.split('_')[-2])` (classif.py lines 507, 624, 805 and
blocks_mosaic.py line 190) is embedded at character level: strings are
lists of characters, `split('_')` keeps empty chunks like Python does, the
`[-2]` index raises IndexError (modelled `none`) when fewer than two chunks
exist, and `int()` accepts an optional sign followed by decimal digits
after stripping whitespace, raising ValueError (modelled `none`) otherwise.
-/

/-- Embeds Python str.split with explicit separator underscore: every
underscore is a cut point and empty chunks are kept. -/
def splitU : List Char → List (List Char)
  | [] => [[]]
  | c :: rest =>
    match splitU rest with
    | t :: ts => if c = '_' then [] :: t :: ts else (c :: t) :: ts
    | [] => [[]]

lemma splitU_cons (c : Char) (rest : List Char) :
    splitU (c :: rest) = (match splitU rest with
      | t :: ts => if c = '_' then [] :: t :: ts else (c :: t) :: ts
      | [] => [[]]) := rfl

lemma splitU_ne_nil (s : List Char) : splitU s ≠ [] := by
  cases s with
  | nil => simp [splitU]
  | cons c rest =>
    unfold splitU
    cases h : splitU rest with
    | nil => simp
    | cons t ts =>
      by_cases hc : c = '_' <;> simp [hc]

lemma splitU_append (u v : List Char) :
    splitU (u ++ '_' :: v) = splitU u ++ splitU v := by
  induction u with
  | nil =>
    simp only [List.nil_append]
    cases hv : splitU v with
    | nil => exact absurd hv (splitU_ne_nil v)
    | cons t ts =>
      rw [splitU_cons, hv]
      simp [splitU]
  | cons c u' ih =>
    simp only [List.cons_append]
    rw [splitU_cons, ih]
    cases hu : splitU u' with
    | nil => exact absurd hu (splitU_ne_nil u')
    | cons t ts =>
      rw [splitU_cons c u', hu]
      by_cases hc : c = '_' <;> simp [hc]

lemma splitU_no_sep (u : List Char) (h : '_' ∉ u) : splitU u = [u] := by
  induction u with
  | nil => rfl
  | cons c u' ih =>
    have hc : c ≠ '_' := by
      intro hcontr
      exact h (by rw [hcontr]; exact List.mem_cons_self _ _)
    have hu' : '_' ∉ u' := fun hm => h (List.mem_cons_of_mem c hm)
    rw [splitU_cons, ih hu']
    simp [hc]

/-- The whitespace characters stripped by Python int() before parsing. -/
def pyWhitespace (c : Char) : Bool :=
  c ∈ [' ', '\t', '\n', '\r', '\x0b', '\x0c']

/-- Embeds str.strip as applied by int(): drop leading and trailing
whitespace. -/
def pyStrip (s : List Char) : List Char :=
  ((s.dropWhile pyWhitespace).reverse.dropWhile pyWhitespace).reverse

/-- Decimal value of one digit character. -/
def digitVal (c : Char) : Nat := c.toNat - 48

/-- Decimal value of a digit string, most significant first. -/
def digitsVal (s : List Char) : Nat :=
  s.foldl (fun a c => 10 * a + digitVal c) 0

/-- Embeds int() on an already-stripped string: optional sign then a
non-empty run of decimal digits; anything else raises ValueError (`none`). -/
def pyIntCore (t : List Char) : Option Int :=
  match t with
  | [] => none
  | c :: rest =>
    if c = '-' then
      if rest ≠ [] ∧ rest.all Char.isDigit then
        some (-(digitsVal rest : Int))
      else none
    else if c = '+' then
      if rest ≠ [] ∧ rest.all Char.isDigit then
        some ((digitsVal rest : Int))
      else none
    else
      if (c :: rest).all Char.isDigit then
        some ((digitsVal (c :: rest) : Int))
      else none

/-- Embeds Python int() applied to a string. -/
def pyInt (s : List Char) : Option Int := pyIntCore (pyStrip s)

/-- Embeds `int(production_id.split('_')[-2])`: underscore split, negative
index -2 (IndexError when fewer than two chunks, modelled `none`), int
conversion.  The `[]` default of getD is unreachable under the length
guard. -/
def extract_aez (production_id : List Char) : Option Int :=
  let toks := splitU production_id
  if 2 ≤ toks.length then pyInt (toks.getD (toks.length - 2) [])
  else none

/-- Decimal digit character of a value below ten. -/
def charOfDigit (d : Nat) : Char := Char.ofNat (48 + d)

/-- Embeds str(n) for a natural number: its decimal digit characters, most
significant first. -/
def pyStrNat (n : Nat) : List Char :=
  if n = 0 then ['0'] else (Nat.digits 10 n).reverse.map charOfDigit

lemma charOfDigit_isDigit (d : Nat) (hd : d < 10) :
    (charOfDigit d).isDigit = true := by
  interval_cases d <;> decide

lemma charOfDigit_not_ws (d : Nat) (hd : d < 10) :
    pyWhitespace (charOfDigit d) = false := by
  interval_cases d <;> decide

lemma charOfDigit_ne_signs (d : Nat) (hd : d < 10) :
    charOfDigit d ≠ '-' ∧ charOfDigit d ≠ '+' := by
  interval_cases d <;> exact ⟨by decide, by decide⟩

lemma digitVal_charOfDigit (d : Nat) (hd : d < 10) :
    digitVal (charOfDigit d) = d := by
  interval_cases d <;> decide

lemma digitsVal_go (L : List Nat) : ∀ a : Nat, (∀ d ∈ L, d < 10) →
    List.foldl (fun acc c => 10 * acc + digitVal c) a (L.map charOfDigit) =
      List.foldl (fun acc d => 10 * acc + d) a L := by
  induction L with
  | nil => intro a _; rfl
  | cons d L' ih =>
    intro a h
    simp only [List.map_cons, List.foldl_cons]
    rw [digitVal_charOfDigit d (h d (List.mem_cons_self d L'))]
    exact ih _ (fun x hx => h x (List.mem_cons_of_mem d hx))

lemma foldl_reverse_ofDigits (L : List Nat) : ∀ a : Nat,
    List.foldl (fun acc d => 10 * acc + d) a L.reverse =
      a * 10 ^ L.length + Nat.ofDigits 10 L := by
  induction L with
  | nil => intro a; simp [Nat.ofDigits]
  | cons d L' ih =>
    intro a
    simp only [List.reverse_cons, List.foldl_append, List.foldl_cons,
      List.foldl_nil]
    rw [ih a]
    simp only [Nat.ofDigits_cons, List.length_cons]
    ring

lemma digitsVal_pyStrNat (n : Nat) : digitsVal (pyStrNat n) = n := by
  by_cases hn : n = 0
  · subst hn; decide
  · unfold pyStrNat digitsVal
    rw [if_neg hn]
    rw [digitsVal_go _ 0 (fun d hd => Nat.digits_lt_base (by norm_num)
      (List.mem_reverse.mp hd))]
    rw [foldl_reverse_ofDigits (Nat.digits 10 n) 0]
    simp [Nat.ofDigits_digits]

lemma pyStrNat_ne_nil (n : Nat) : pyStrNat n ≠ [] := by
  unfold pyStrNat
  by_cases hn : n = 0
  · simp [hn]
  · rw [if_neg hn]
    simp only [ne_eq, List.map_eq_nil_iff, List.reverse_eq_nil_iff]
    exact Nat.digits_ne_nil_iff_ne_zero.mpr hn

lemma pyStrNat_all_digits (n : Nat) :
    (pyStrNat n).all Char.isDigit = true := by
  unfold pyStrNat
  by_cases hn : n = 0
  · simp [hn]
  · rw [if_neg hn]
    rw [List.all_eq_true]
    intro c hc
    rcases List.mem_map.mp hc with ⟨d, hd, rfl⟩
    exact charOfDigit_isDigit d (Nat.digits_lt_base (by norm_num)
      (List.mem_reverse.mp hd))

lemma digit_not_ws (c : Char) (h : c.isDigit = true) :
    pyWhitespace c = false := by
  unfold Char.isDigit at h
  simp only [Bool.and_eq_true, decide_eq_true_eq] at h
  unfold pyWhitespace
  simp only [List.mem_cons, List.not_mem_nil, or_false,
    decide_eq_false_iff_not]
  rcases h with ⟨h1, h2⟩
  intro hcontr
  rcases hcontr with rfl | rfl | rfl | rfl | rfl | rfl <;>
    exact absurd h1 (by decide)

lemma pyStrip_of_no_ws (s : List Char)
    (h : ∀ c ∈ s, pyWhitespace c = false) : pyStrip s = s := by
  have hdrop : ∀ (l : List Char), (∀ c ∈ l, pyWhitespace c = false) →
      l.dropWhile pyWhitespace = l := by
    intro l hl
    cases l with
    | nil => rfl
    | cons c cs =>
      rw [List.dropWhile_cons, if_neg]
      simp [hl c (List.mem_cons_self c cs)]
  unfold pyStrip
  rw [hdrop s h,
    hdrop s.reverse (fun c hc => h c (List.mem_reverse.mp hc)),
    List.reverse_reverse]

lemma pyInt_pyStrNat (n : Nat) : pyInt (pyStrNat n) = some (n : Int) := by
  have hdig := pyStrNat_all_digits n
  have hne := pyStrNat_ne_nil n
  have hstrip : pyStrip (pyStrNat n) = pyStrNat n := by
    apply pyStrip_of_no_ws
    intro c hc
    rw [List.all_eq_true] at hdig
    exact digit_not_ws c (hdig c hc)
  unfold pyInt
  rw [hstrip]
  cases hs : pyStrNat n with
  | nil => exact absurd hs hne
  | cons c cs =>
    have hcdig : c.isDigit = true := by
      rw [List.all_eq_true] at hdig
      exact hdig c (by rw [hs]; exact List.mem_cons_self c cs)
    have hminus : ¬(c = '-') := by
      intro hcontr
      rw [hcontr] at hcdig
      exact absurd hcdig (by decide)
    have hplus : ¬(c = '+') := by
      intro hcontr
      rw [hcontr] at hcdig
      exact absurd hcdig (by decide)
    unfold pyIntCore
    simp only []
    rw [if_neg hminus, if_neg hplus, if_pos (by rw [← hs]; exact hdig)]
    rw [← hs, digitsVal_pyStrNat]

/-- C9: splitting a production identifier of the form
`X_{aez}_{timestamp}` on underscores and converting the second-to-last
token yields exactly the AEZ integer (for any prefix X, even one containing
underscores, and any underscore-free timestamp); an identifier with fewer
than two tokens is rejected with an IndexError (`none`), and one whose
second-to-last token is not numeric is rejected by int() (`none`) rather
than mis-parsed. -/
theorem aez_extraction_invariant (x ts : List Char) (aez : Nat)
    (pid : List Char) (hts : '_' ∉ ts) :
    (extract_aez (x ++ '_' :: (pyStrNat aez ++ '_' :: ts)) =
      some (aez : Int))
    ∧ ((splitU pid).length < 2 → extract_aez pid = none)
    ∧ (2 ≤ (splitU pid).length →
        pyInt ((splitU pid).getD ((splitU pid).length - 2) []) = none →
        extract_aez pid = none) := by
  refine ⟨?_, ?_, ?_⟩
  · have hnum_no_us : '_' ∉ pyStrNat aez := by
      intro hc
      have hd := pyStrNat_all_digits aez
      rw [List.all_eq_true] at hd
      exact absurd (hd '_' hc) (by decide)
    have hsplit : splitU (x ++ '_' :: (pyStrNat aez ++ '_' :: ts)) =
        splitU x ++ [pyStrNat aez, ts] := by
      rw [splitU_append, splitU_append, splitU_no_sep _ hnum_no_us,
        splitU_no_sep _ hts]
      simp
    unfold extract_aez
    simp only [hsplit]
    have hlen : (splitU x ++ [pyStrNat aez, ts]).length =
        (splitU x).length + 2 := by
      simp
    rw [hlen, if_pos (by omega)]
    have hidx : (splitU x).length + 2 - 2 = (splitU x).length := by omega
    rw [hidx]
    have hget : (splitU x ++ [pyStrNat aez, ts]).getD
        ((splitU x).length) [] = pyStrNat aez := by
      rw [List.getD_eq_getElem?_getD,
        List.getElem?_append_right (Nat.le_refl _)]
      simp
    rw [hget, pyInt_pyStrNat]
  · intro hlt
    unfold extract_aez
    rw [if_neg (by omega)]
  · intro hge hnone
    unfold extract_aez
    rw [if_pos hge, hnone]

/-- Witness for C9 at a concrete production identifier
EWoC_prd_46_20220101 (so X is EWoC_prd, the AEZ is 46, the timestamp is
20220101), plus concrete malformed identifiers. -/
theorem aez_extraction_invariant_witness :
    ('_' ∉ ("20220101".toList) ∧
      extract_aez ("EWoC_prd".toList ++ '_' ::
        (pyStrNat 46 ++ '_' :: "20220101".toList)) = some (46 : Int)) ∧
    ((splitU ("EWoCprd20220101".toList)).length < 2 ∧
      extract_aez ("EWoCprd20220101".toList) = none) ∧
    (2 ≤ (splitU ("EWoC_prd_q6_20220101".toList)).length ∧
      extract_aez ("EWoC_prd_q6_20220101".toList) = none) := by
  have h := aez_extraction_invariant ("EWoC_prd".toList) ("20220101".toList)
    46 ("EWoCprd20220101".toList) (by decide)
  have h2 := aez_extraction_invariant ("EWoC_prd".toList)
    ("20220101".toList) 46 ("EWoC_prd_q6_20220101".toList) (by decide)
  refine ⟨⟨by decide, h.1⟩, ⟨by decide, h.2.1 (by decide)⟩,
    ⟨by decide, h2.2.2 (by decide) (by decide)⟩⟩

/-! ## run_classif configuration preparation (classif.py lines 495-615)

The parts of the environment run_classif consults while deriving the
configuration are collected in one record: the SAR/TIR collections loaded
from the CSV indexes, the per-collection gap tolerances
(get_coll_maxgap), the processing window (get_processing_dates), the
emptiness of explicitly supplied CSV files, and the outcome of the
per-block feature download on the reuse path.
-/

/-- Ambient state consulted by run_classif while building the config. -/
structure ClassifWorld where
  sarColl : List CollEntry
  tirColl : List CollEntry
  sarMaxgap : Int
  tirMaxgap : Int
  startDate : Int
  endDate : Int
  downloadedFeaturesOk : Bool
  sarCsvEmpty : Bool
  tirCsvEmpty : Bool

/-- Result of the preparation phase of run_classif: an exception propagated
before the config was generated (malformed production id, or the NameError
on the reuse path with an empty block list), or the generated configuration
together with the inputs mapping and the no_tir / use_existing_features
values that went into it. -/
inductive RunClassifPrep where
  | error
  | prepared (c : ConfigResult) (inputs : List (String × String))
      (noTir : Bool) (useExisting : Bool)
  deriving DecidableEq, Repr

/-- The no_tir value recorded in a preparation result. -/
def noTirOf : RunClassifPrep → Option Bool
  | .error => none
  | .prepared _ _ noTir _ => some noTir

/-- Embeds the configuration-derivation flow of run_classif (classif.py
lines 495-615), keeping the source order: the aez extraction (line 507),
the unconditional `no_sar=False; no_tir=False` reassignments (lines
508-509) that kill the no_tir parameter, the feature-reuse branch (lines
514-526), the CSV branch with its empty-file checks (lines 528-549), the
year-2022 add_croptype rule (line 556), the overwriting of no_sar/no_tir by
the collection completeness checks (lines 565-569), the four-way csv_dict
selection (lines 571-598), and the generate_config_file call (line 602). -/
def run_classif_prepare (env : EnvVars) (w : ClassifWorld)
    (uid out_dirpath : String) (production_id : String)
    (block_ids : Option (List Nat))
    (sar_csv optical_csv tir_csv agera5_csv : Option String)
    (ewoc_detector : String) (end_season_year : Int) (ewoc_season : String)
    (clv ctv irrv : String) (use_existing_features : Bool)
    (no_tir : Bool) : RunClassifPrep :=
  match extract_aez production_id.toList with
  | none => .error
  | some _aez =>
    let no_sar := false
    let no_tir := false
    let add_croptype := false
    let feature_blocks_dir := out_dirpath ++ "/block_features"
    if use_existing_features = true ∧ block_ids ≠ none then
      match block_ids with
      | none => .error
      | some [] => .error
      | some (_ :: _) =>
        let use2 := w.downloadedFeaturesOk
        .prepared
          (generate_config_file env ewoc_detector end_season_year
            ewoc_season production_id clv ctv irrv [] feature_blocks_dir
            no_tir use2 add_croptype)
          [] no_tir use2
    else
      let sar_path := match sar_csv with
        | none => out_dirpath ++ "/" ++ uid ++ "_satio_sar.csv"
        | some p => p
      let no_sar := if sar_csv ≠ none ∧ w.sarCsvEmpty = true then true
        else no_sar
      let optical_path := match optical_csv with
        | none => out_dirpath ++ "/" ++ uid ++ "_satio_optical.csv"
        | some p => p
      let tir_path := match tir_csv with
        | none => out_dirpath ++ "/" ++ uid ++ "_satio_tir.csv"
        | some p => p
      let no_tir := if tir_csv ≠ none ∧ w.tirCsvEmpty = true then true
        else no_tir
      let agera5_path := match agera5_csv with
        | none => out_dirpath ++ "/" ++ uid ++ "_satio_agera5.csv"
        | some p => p
      let add_croptype := if end_season_year = 2022 then true
        else add_croptype
      let no_sar := check_collection w.sarColl "SAR" w.startDate w.endDate
        w.sarMaxgap 2
      let no_tir := check_collection w.tirColl "TIR" w.startDate w.endDate
        w.tirMaxgap 2
      let csv_dict :=
        if no_tir = false ∧ no_sar = false then
          [("OPTICAL", optical_path), ("SAR", sar_path),
           ("TIR", tir_path), ("DEM", "s3://ewoc-aux-data/CopDEM_20m"),
           ("METEO", agera5_path)]
        else if no_sar = false ∧ no_tir = true then
          [("OPTICAL", optical_path), ("SAR", sar_path),
           ("DEM", "s3://ewoc-aux-data/CopDEM_20m"),
           ("METEO", agera5_path)]
        else if no_tir = false ∧ no_sar = true then
          [("OPTICAL", optical_path), ("TIR", tir_path),
           ("DEM", "s3://ewoc-aux-data/CopDEM_20m"),
           ("METEO", agera5_path)]
        else
          [("OPTICAL", optical_path),
           ("DEM", "s3://ewoc-aux-data/CopDEM_20m"),
           ("METEO", agera5_path)]
      .prepared
        (generate_config_file env ewoc_detector end_season_year ewoc_season
          production_id clv ctv irrv csv_dict feature_blocks_dir no_tir
          use_existing_features add_croptype)
        csv_dict no_tir use_existing_features

/-- C10: the no_tir parameter of run_classif has no effect — two
invocations whose arguments differ only in no_tir prepare identical
configurations and identical subsequent processing inputs, because line 509
unconditionally reassigns no_tir to False before any use; the TIR state
that actually reaches the configuration is re-derived: it is False on the
feature-reuse path and the TIR collection completeness verdict otherwise. -/
theorem run_classif_no_tir_dead (env : EnvVars) (w : ClassifWorld)
    (uid out pid : String) (bids : Option (List Nat))
    (sar opt tir ag : Option String) (det : String) (y : Int)
    (season : String) (clv ctv irrv : String) (reuse : Bool)
    (nt₁ nt₂ : Bool) (a : Int) (ha : extract_aez pid.toList = some a) :
    (run_classif_prepare env w uid out pid bids sar opt tir ag det y season
        clv ctv irrv reuse nt₁ =
      run_classif_prepare env w uid out pid bids sar opt tir ag det y season
        clv ctv irrv reuse nt₂)
    ∧ (¬(reuse = true ∧ bids ≠ none) →
        noTirOf (run_classif_prepare env w uid out pid bids sar opt tir ag
            det y season clv ctv irrv reuse nt₁) =
          some (check_collection w.tirColl "TIR" w.startDate w.endDate
            w.tirMaxgap 2))
    ∧ (∀ (i : Nat) (ids : List Nat), bids = some (i :: ids) → reuse = true →
        noTirOf (run_classif_prepare env w uid out pid bids sar opt tir ag
            det y season clv ctv irrv reuse nt₁) = some false) := by
  refine ⟨rfl, ?_, ?_⟩
  · intro hnot
    unfold run_classif_prepare
    rw [ha]
    simp only [if_neg hnot]
    rfl
  · intro i ids hbids hreuse
    subst hbids hreuse
    unfold run_classif_prepare
    rw [ha]
    rw [if_pos ⟨rfl, by simp⟩]
    rfl

/-- Witness for C10 at concrete inputs: flipping no_tir leaves the prepared
configuration unchanged, on the CSV path of a well-formed production id. -/
theorem run_classif_no_tir_dead_witness :
    extract_aez ("EWoC_prd_46_20220101".toList) = some (46 : Int) ∧
    run_classif_prepare (fun _ => none)
        ⟨[], [], 60, 60, 0, 100, true, false, false⟩ "31TCJ_abc123" "/tmp"
        "EWoC_prd_46_20220101" none none none none none "cropland" 2021
        "annual" "v700" "v720" "v420" false true =
      run_classif_prepare (fun _ => none)
        ⟨[], [], 60, 60, 0, 100, true, false, false⟩ "31TCJ_abc123" "/tmp"
        "EWoC_prd_46_20220101" none none none none none "cropland" 2021
        "annual" "v700" "v720" "v420" false false := by
  constructor
  · decide
  · exact (run_classif_no_tir_dead (fun _ => none)
      ⟨[], [], 60, 60, 0, 100, true, false, false⟩ "31TCJ_abc123" "/tmp"
      "EWoC_prd_46_20220101" none none none none none "cropland" 2021
      "annual" "v700" "v720" "v420" false true false 46 (by decide)).1

/-! ## Pipeline-driver working-directory cleanup (C4)

Each driver tail is modelled from the point where its per-invocation
working directory exists and the main stage runs, recording how the call
ends (normal return or a propagated exception) and whether
`shutil.rmtree(out_dirpath)` was executed.
-/

/-- How a driver invocation ends. -/
inductive DriverExit where
  | ok
  | raised
  deriving DecidableEq, Repr

/-- Driver outcome: the exit kind, and whether the per-invocation working
directory was removed. -/
structure DriverResult where
  exit : DriverExit
  workdirRemoved : Bool
  deriving DecidableEq, Repr

/-- Embeds classify_block (classif.py lines 652-716): an engine exception
is caught and turned into return code 2; an engine return code is passed
through unchanged. -/
def classify_block : EngineOutcome → Int
  | .exc => 2
  | .ret c => c

/-- Embeds the tail of run_classif (classif.py lines 623-650): the block or
mosaic stage runs inside `try`; the bare `except Exception` catches any
failure (including the RuntimeError raised on a false process_blocks
status), and the `finally` removes out_dirpath whenever clean is set.
`stage` is `none` when the stage raised, `some st` when process_blocks
returned status st. -/
def run_classif_finish (stage : Option Bool) (clean : Bool) : DriverResult :=
  match stage with
  | none => ⟨DriverExit.ok, clean⟩
  | some false => ⟨DriverExit.ok, clean⟩
  | some true => ⟨DriverExit.ok, clean⟩

/-- Embeds the tail of generate_ewoc_block (classif.py lines 929-977):
classify_block runs; a code above 1 raises RuntimeError before the cleanup
lines are reached; code 1 skips upload; code 0 uploads (an upload failure
raises RuntimeError, again before cleanup); only a normal return reaches
`if clean: shutil.rmtree(out_dirpath)` at line 974. -/
def generate_ewoc_block_finish (engineOutcome : EngineOutcome)
    (uploadOk : Bool) (upload_block : Bool) (clean : Bool) : DriverResult :=
  let ret := classify_block engineOutcome
  if ret > 1 then ⟨DriverExit.raised, false⟩
  else if ret = 1 then ⟨DriverExit.ok, clean⟩
  else
    if upload_block then
      if uploadOk then ⟨DriverExit.ok, clean⟩
      else ⟨DriverExit.raised, false⟩
    else ⟨DriverExit.ok, clean⟩

/-- Embeds the tail of generate_ewoc_products (blocks_mosaic.py lines
261-315): a false mosaic_blocks status raises RuntimeError; missing STAC
metadata raises RuntimeError; an upload failure raises RuntimeError; each
of these raises happens before the `if clean:` cleanup at line 312, which
only a normal return reaches. -/
def generate_ewoc_products_finish (mosaicOk stacFound uploadOk : Bool)
    (upload_prd : Bool) (clean : Bool) : DriverResult :=
  if mosaicOk = false then ⟨DriverExit.raised, false⟩
  else if stacFound = false then ⟨DriverExit.raised, false⟩
  else if upload_prd = true ∧ uploadOk = false then
    ⟨DriverExit.raised, false⟩
  else ⟨DriverExit.ok, clean⟩

/-- C4 counterexample: with clean set, generate_ewoc_block leaves the
working directory in place when the engine fails with code 3 (it raises
RuntimeError before the cleanup line), and generate_ewoc_products leaves it
in place when the mosaic stage fails, contradicting the claim that every
pipeline driver removes the directory on its failure paths. -/
theorem driver_cleanup_cex :
    ((generate_ewoc_block_finish (EngineOutcome.ret 3) true true
        true).exit = DriverExit.raised ∧
      (generate_ewoc_block_finish (EngineOutcome.ret 3) true true
        true).workdirRemoved = false) ∧
    ((generate_ewoc_products_finish false true true true true).exit =
        DriverExit.raised ∧
      (generate_ewoc_products_finish false true true true
        true).workdirRemoved = false) := by
  decide

/-- C4 (amended): with clean set, run_classif always removes its working
directory — its stage runs under try/except/finally, so it cleans and
returns normally whether the stage succeeded, returned a failing status, or
raised — whereas generate_ewoc_block and generate_ewoc_products remove the
directory exactly on their normally-returning paths and never on a raising
path. -/
theorem driver_cleanup_amended (stage : Option Bool)
    (engineOutcome : EngineOutcome)
    (uploadOk upload_block mosaicOk stacFound uploadOk2 upload_prd : Bool)
    (clean : Bool) (hclean : clean = true) :
    ((run_classif_finish stage clean).workdirRemoved = true ∧
      (run_classif_finish stage clean).exit = DriverExit.ok)
    ∧ ((generate_ewoc_block_finish engineOutcome uploadOk upload_block
          clean).exit = DriverExit.ok ↔
        (generate_ewoc_block_finish engineOutcome uploadOk upload_block
          clean).workdirRemoved = true)
    ∧ ((generate_ewoc_products_finish mosaicOk stacFound uploadOk2
          upload_prd clean).exit = DriverExit.ok ↔
        (generate_ewoc_products_finish mosaicOk stacFound uploadOk2
          upload_prd clean).workdirRemoved = true) := by
  subst hclean
  refine ⟨?_, ?_, ?_⟩
  · rcases stage with _ | b
    · exact ⟨rfl, rfl⟩
    · rcases b <;> exact ⟨rfl, rfl⟩
  · unfold generate_ewoc_block_finish
    by_cases h1 : classify_block engineOutcome > 1
    · simp [h1]
    · by_cases h2 : classify_block engineOutcome = 1
      · simp [h1, h2]
      · rcases upload_block <;> rcases uploadOk <;> simp [h1, h2]
  · unfold generate_ewoc_products_finish
    rcases mosaicOk <;> rcases stacFound <;> rcases upload_prd <;>
      rcases uploadOk2 <;> simp

/-- Witness for C4 (amended) at concrete inputs: a raising stage under
run_classif still cleans; a skipped block under generate_ewoc_block returns
normally and cleans. -/
theorem driver_cleanup_amended_witness :
    (true = true) ∧
    (run_classif_finish none true).workdirRemoved = true ∧
    (generate_ewoc_block_finish (EngineOutcome.ret 1) true true
      true).workdirRemoved = true := by
  have h := driver_cleanup_amended none (EngineOutcome.ret 1) true true
    true true true true true rfl
  exact ⟨rfl, h.1.1, h.2.1.mp (by decide)⟩
